import Mathlib

/-!
Shallow embedding of the authentication core of the nestjs-api-starter
repository: the user store, bcrypt hashing, JWT signing, the AuthService
session lifecycle (login / register / refresh / logout with refresh-token
rotation), the controller response shapes, and the guard pipeline.

The embedded AuthService is the rotation-enabled revision (the one that
stores and checks `refreshTokenHash`), which is the revision the design
document describes.
-/

/-- The `UserRole` enum of the Prisma schema: `CUSTOMER | ADMIN | VENDOR`. -/
inductive Role where
  | CUSTOMER
  | ADMIN
  | VENDOR
deriving DecidableEq, Repr

/-- An ideal model of a bcrypt hash of a value of type `α`: `bcrypt.hash` is
treated as collision-free, so `bcrypt.compare` recovers equality of
plaintexts. Salt and cost factor (10 in the source) do not affect any
verified property and are not modelled. -/
structure BHash (α : Type) where
  plain : α
deriving DecidableEq, Repr

/-- Model of `bcrypt.hash(plain, saltRounds)`. -/
def bcryptHash {α : Type} (a : α) : BHash α := ⟨a⟩

/-- Model of `bcrypt.compare(presented, hash)`. -/
def bcryptCompare {α : Type} [DecidableEq α] (presented : α) (h : BHash α) : Bool :=
  presented = h.plain

/-- The JWT claims payload built in `AuthService.generateTokenPair`
(`{ sub, username, email, role }`). -/
structure JwtPayload where
  sub : String
  username : String
  email : String
  role : Role
deriving DecidableEq, Repr

/-- Model of the external JWT library: a signed token is opaque data
determined by its claims payload, its signing secret and its expiry option.
Wall-clock expiry is not modelled; no settled claim mentions it. -/
structure SignedToken where
  payload : JwtPayload
  secret : String
  expiresIn : String
deriving DecidableEq, Repr

/-- Model of `jwtService.sign(payload, { secret, expiresIn })`. -/
def jwtSign (payload : JwtPayload) (secret : String) (expiresIn : String) : SignedToken :=
  ⟨payload, secret, expiresIn⟩

/-- Model of `jwtService.verify(token, { secret })`: recovers the claims
exactly when the secret matches the signing secret, and fails (modelled as
`none`, for the thrown error) on a signature mismatch. -/
def jwtVerify (token : SignedToken) (secret : String) : Option JwtPayload :=
  if token.secret == secret then some token.payload else none

/-- The persisted `User` row of the Prisma model. The timestamps
`createdAt` / `updatedAt` / `deletedAt` are never read by the embedded
operations and are omitted. -/
structure User where
  id : String
  email : String
  username : String
  password : BHash String
  refreshTokenHash : Option (BHash SignedToken)
  firstName : String
  lastName : String
  role : Role
  isActive : Bool
deriving DecidableEq, Repr

/-- The user table of the external persistence collaborator. `nextId`
models the database id generator used by `usersRepository.create`. -/
structure Store where
  users : List User
  nextId : Nat
deriving DecidableEq, Repr

/-- The error taxonomy thrown by the auth core: `UnauthorizedException`
and `BadRequestException` from `AuthService`, and the plain `Error` thrown
by `UsersService.createUser`. Thrown exceptions are modelled as returned
errors. -/
inductive AuthErr where
  | unauthorized (msg : String)
  | badRequest (msg : String)
  | internal (msg : String)
deriving DecidableEq, Repr

/-- The shape created by `AuthService.register` before hashing: the
register DTO with the password replaced by its hash. -/
structure CreateUserInput where
  email : String
  username : String
  password : BHash String
  firstName : String
  lastName : String
deriving DecidableEq, Repr

namespace UsersService

/-- `UsersService.getUserByEmail`, delegating to
`usersRepository.findByEmail` (a unique-column lookup). -/
def getUserByEmail (store : Store) (email : String) : Option User :=
  store.users.find? (fun u => u.email == email)

/-- `UsersService.getUserByUsername`, delegating to
`usersRepository.findByUsername`. -/
def getUserByUsername (store : Store) (username : String) : Option User :=
  store.users.find? (fun u => u.username == username)

/-- `UsersService.getFindById`, delegating to `usersRepository.findById`. -/
def getFindById (store : Store) (id : String) : Option User :=
  store.users.find? (fun u => u.id == id)

/-- `UsersService.createUser`: re-checks email uniqueness (the truthiness
guard `data.email && ...` skips the lookup for an empty email) and
delegates to `usersRepository.create`. The database-generated id is
modelled by the store counter; the schema defaults `role = CUSTOMER`,
`isActive = true`, `refreshTokenHash = null` apply to the created row. -/
def createUser (store : Store) (data : CreateUserInput) :
    Except AuthErr (User × Store) :=
  if data.email != "" && (getUserByEmail store data.email).isSome then
    .error (.internal "User already exists")
  else
    let user : User :=
      { id := "user-" ++ toString store.nextId
        email := data.email
        username := data.username
        password := data.password
        refreshTokenHash := none
        firstName := data.firstName
        lastName := data.lastName
        role := .CUSTOMER
        isActive := true }
    .ok (user, { users := store.users ++ [user], nextId := store.nextId + 1 })

/-- `usersRepository.update(userId, { refreshTokenHash })`: the
persistence collaborator's per-row update of the hash column. -/
def updateRefreshHash (store : Store) (userId : String)
    (h : Option (BHash SignedToken)) : Store :=
  { store with
    users := store.users.map (fun u =>
      if u.id == userId then { u with refreshTokenHash := h } else u) }

/-- `UsersService.setRefreshTokenHash`: bcrypt-hashes the plaintext refresh
token and persists it as the user's `refreshTokenHash`, overwriting any
prior value. -/
def setRefreshTokenHash (store : Store) (userId : String)
    (refreshToken : SignedToken) : Store :=
  updateRefreshHash store userId (some (bcryptHash refreshToken))

/-- `UsersService.clearRefreshTokenHash`: sets `refreshTokenHash` to null. -/
def clearRefreshTokenHash (store : Store) (userId : String) : Store :=
  updateRefreshHash store userId none

end UsersService

/-- `Omit<User, 'password'>` as produced by `AuthService.excludePassword`. -/
structure UserWithoutPassword where
  id : String
  email : String
  username : String
  refreshTokenHash : Option (BHash SignedToken)
  firstName : String
  lastName : String
  role : Role
  isActive : Bool
deriving DecidableEq, Repr

/-- The `TokenPair` interface of `AuthService`. -/
structure TokenPair where
  accessToken : SignedToken
  refreshToken : SignedToken
deriving DecidableEq, Repr

/-- The `user` object literal of `generateAuthResponseWithTokens`: built
from exactly the six fields id, email, username, firstName, lastName,
role. -/
structure UserResponse where
  id : String
  email : String
  username : String
  firstName : String
  lastName : String
  role : Role
deriving DecidableEq, Repr

/-- `AuthResponseDto & TokenPair` as returned by login / register. -/
structure AuthResponse where
  accessToken : SignedToken
  refreshToken : SignedToken
  user : UserResponse
deriving DecidableEq, Repr

/-- The configuration read through `configService.get`: the two JWT
secrets and the optional TTL options. -/
structure Config where
  secret : String
  refreshSecret : String
  accessTokenExpiresIn : Option String
  refreshTokenExpiresIn : Option String
deriving DecidableEq, Repr

/-- The register request body. -/
structure RegisterDto where
  email : String
  username : String
  password : String
  firstName : String
  lastName : String
deriving DecidableEq, Repr

/-- The login request body. -/
structure LoginDto where
  username : String
  password : String
deriving DecidableEq, Repr

namespace AuthService

/-- `AuthService.excludePassword`: rest-destructuring that drops the
`password` field. -/
def excludePassword (u : User) : UserWithoutPassword :=
  { id := u.id
    email := u.email
    username := u.username
    refreshTokenHash := u.refreshTokenHash
    firstName := u.firstName
    lastName := u.lastName
    role := u.role
    isActive := u.isActive }

/-- The payload literal built at the top of `generateTokenPair`. -/
def tokenPayload (user : UserWithoutPassword) : JwtPayload :=
  { sub := user.id
    username := user.username
    email := user.email
    role := user.role }

/-- `AuthService.generateTokenPair`: signs the access token with
`jwt.secret` (TTL default `15m`) and the refresh token with
`jwt.refreshSecret` (TTL default `7d`), both over the same claims. -/
def generateTokenPair (cfg : Config) (user : UserWithoutPassword) : TokenPair :=
  let payload := tokenPayload user
  let accessToken := jwtSign payload cfg.secret (cfg.accessTokenExpiresIn.getD "15m")
  let refreshToken := jwtSign payload cfg.refreshSecret (cfg.refreshTokenExpiresIn.getD "7d")
  { accessToken := accessToken, refreshToken := refreshToken }

/-- `AuthService.generateAuthResponseWithTokens`: the token pair together
with the six-field user object literal. -/
def generateAuthResponseWithTokens (cfg : Config) (user : UserWithoutPassword) :
    AuthResponse :=
  let tokens := generateTokenPair cfg user
  { accessToken := tokens.accessToken
    refreshToken := tokens.refreshToken
    user :=
      { id := user.id
        email := user.email
        username := user.username
        firstName := user.firstName
        lastName := user.lastName
        role := user.role } }

/-- `AuthService.isExitUser` of the rotation-enabled revision: two
independent lookups, the email violation reported first. Returns the
thrown conflict error, if any. -/
def isExitUser (store : Store) (email username : String) : Option AuthErr :=
  let byEmail := UsersService.getUserByEmail store email
  let byUsername := UsersService.getUserByUsername store username
  if byEmail.isSome then some (.badRequest "Email is already registered")
  else if byUsername.isSome then some (.badRequest "Username is already taken")
  else none

/-- `AuthService.validateCredentials`: username lookup, bcrypt comparison
(generic failure), then the isActive check (distinct failure), then the
identity with the password stripped. -/
def validateCredentials (store : Store) (username password : String) :
    Except AuthErr UserWithoutPassword :=
  match UsersService.getUserByUsername store username with
  | none => .error (.unauthorized "Invalid credentials")
  | some user =>
    if !(bcryptCompare password user.password) then
      .error (.unauthorized "Invalid credentials")
    else if !user.isActive then
      .error (.unauthorized "Account is inactive")
    else
      .ok (excludePassword user)

/-- `AuthService.login`: validate credentials, build the response, persist
the hash of the newly issued refresh token. -/
def login (cfg : Config) (dto : LoginDto) (store : Store) :
    Except AuthErr AuthResponse × Store :=
  match validateCredentials store dto.username dto.password with
  | .error e => (.error e, store)
  | .ok user =>
    let result := generateAuthResponseWithTokens cfg user
    (.ok result, UsersService.setRefreshTokenHash store user.id result.refreshToken)

/-- `AuthService.register` of the rotation-enabled revision: conflict
checks, password hashing, user creation, response generation, then
persisting the hash of the issued refresh token. -/
def register (cfg : Config) (dto : RegisterDto) (store : Store) :
    Except AuthErr AuthResponse × Store :=
  match isExitUser store dto.email dto.username with
  | some e => (.error e, store)
  | none =>
    let hashedPassword := bcryptHash dto.password
    match UsersService.createUser store
        { email := dto.email
          username := dto.username
          password := hashedPassword
          firstName := dto.firstName
          lastName := dto.lastName } with
    | .error e => (.error e, store)
    | .ok (user, store1) =>
      let result := generateAuthResponseWithTokens cfg (excludePassword user)
      (.ok result, UsersService.setRefreshTokenHash store1 user.id result.refreshToken)

/-- `AuthService.refresh` of the rotation-enabled revision: verify against
the refresh secret, load the user, check isActive, check the stored hash
against the presented token, then rotate. The surrounding try/catch
collapses every failure into the single `Invalid refresh token` message. -/
def refresh (cfg : Config) (refreshToken : SignedToken) (store : Store) :
    Except AuthErr TokenPair × Store :=
  match jwtVerify refreshToken cfg.refreshSecret with
  | none => (.error (.unauthorized "Invalid refresh token"), store)
  | some payload =>
    match UsersService.getFindById store payload.sub with
    | none => (.error (.unauthorized "Invalid refresh token"), store)
    | some user =>
      if !user.isActive then
        (.error (.unauthorized "Invalid refresh token"), store)
      else
        match user.refreshTokenHash with
        | none => (.error (.unauthorized "Invalid refresh token"), store)
        | some h =>
          if !(bcryptCompare refreshToken h) then
            (.error (.unauthorized "Invalid refresh token"), store)
          else
            let tokens := generateTokenPair cfg (excludePassword user)
            (.ok tokens, UsersService.setRefreshTokenHash store user.id tokens.refreshToken)

/-- `AuthService.logout`: delegates to
`UsersService.clearRefreshTokenHash` and never throws. -/
def logout (store : Store) (userId : String) : Except AuthErr Unit × Store :=
  (.ok (), UsersService.clearRefreshTokenHash store userId)

end AuthService

/-- Whether an `Except` result is a success. -/
def isOkE {ε α : Type} (e : Except ε α) : Bool :=
  match e with
  | .ok _ => true
  | .error _ => false

instance {ε α : Type} [DecidableEq ε] [DecidableEq α] : DecidableEq (Except ε α) :=
  fun x y =>
    match x, y with
    | .ok a, .ok b =>
      if h : a = b then isTrue (by rw [h])
      else isFalse (fun hc => h (Except.ok.inj hc))
    | .ok _, .error _ => isFalse (fun hc => Except.noConfusion hc)
    | .error _, .ok _ => isFalse (fun hc => Except.noConfusion hc)
    | .error e, .error f =>
      if h : e = f then isTrue (by rw [h])
      else isFalse (fun hc => h (Except.error.inj hc))

/-- A value of a serialized JSON response object. -/
inductive JsonVal where
  | str (s : String)
  | roleVal (r : Role)
deriving DecidableEq, Repr

/-- Serialization of the six-field `user` object literal of
`generateAuthResponseWithTokens` as a key/value list. -/
def userResponseObj (u : UserResponse) : List (String × JsonVal) :=
  [("id", .str u.id), ("email", .str u.email), ("username", .str u.username),
   ("firstName", .str u.firstName), ("lastName", .str u.lastName),
   ("role", .roleVal u.role)]

/-- Modelled from the spec: `JwtStrategy.validate` (jwt.strategy.ts is
absent from the repository snapshot; only its unit test is present). Per
the design document it loads the identity fresh from persistence by the
token's subject id and rejects an absent or inactive user with 401; per
its unit test the identity attached to the request is the object
`{ id, email, role }`. -/
def jwtStrategyValidate (store : Store) (payload : JwtPayload) :
    Except AuthErr (List (String × JsonVal)) :=
  match UsersService.getFindById store payload.sub with
  | none => .error (.unauthorized "Unauthorized")
  | some user =>
    if !user.isActive then .error (.unauthorized "Unauthorized")
    else .ok [("id", .str user.id), ("email", .str user.email),
              ("role", .roleVal user.role)]

/-- `AuthController.me`: rest-destructuring that removes the `password`
key from the request user object and returns the rest. -/
def meHandler (user : List (String × JsonVal)) : List (String × JsonVal) :=
  user.filter (fun kv => kv.fst != "password")

/-- The authenticated identity attached to the request by the Auth Gate. -/
structure Identity where
  id : String
  role : Role
deriving DecidableEq, Repr

/-- Modelled from the spec: `RolesGuard.canActivate` (role.guard.ts is
absent from the repository snapshot; only its unit test is present).
`requiredRoles = none` models the reflector returning null/undefined for
a route with no role metadata, in which case the guard admits; otherwise
the identity's role must be a member of the declared list. The unit test
pins that an empty declared list rejects. -/
def rolesGuardCanActivate (requiredRoles : Option (List Role))
    (identity : Identity) : Bool :=
  match requiredRoles with
  | none => true
  | some roles => roles.any (fun r => r == identity.role)

/-- Outcome of the Auth Gate for one request. -/
inductive GateDecision where
  | admitted
  | rejected401
  | rejected403
deriving DecidableEq, Repr

/-- Modelled from the spec: the Auth Gate pipeline (JwtAuthGuard +
JwtStrategy + RolesGuard; the guard implementation files are absent from
the repository snapshot, only their unit tests). A route marked public is
admitted with no token check at all; otherwise the bearer token must
authenticate an active identity (collapsed to `Option Identity`: `none`
means no valid token / no active user, rejected 401), and then the role
check of `rolesGuardCanActivate` runs, rejecting with 403 on failure. -/
def authGate (isPublic : Bool) (identity : Option Identity)
    (requiredRoles : Option (List Role)) : GateDecision :=
  if isPublic then .admitted
  else
    match identity with
    | none => .rejected401
    | some idt =>
      if rolesGuardCanActivate requiredRoles idt then .admitted
      else .rejected403

/-- The acceptance condition of the refresh claim, written from the spec
sentence: the token verifies against the refresh secret, the user exists
and is active, and the stored `refreshTokenHash` matches the presented
token. -/
def refreshChecks (cfg : Config) (token : SignedToken) (store : Store) : Bool :=
  match jwtVerify token cfg.refreshSecret with
  | none => false
  | some payload =>
    match UsersService.getFindById store payload.sub with
    | none => false
    | some user =>
      user.isActive &&
        (match user.refreshTokenHash with
         | none => false
         | some h => bcryptCompare token h)

/-- A sample active user whose password is the bcrypt hash of `pw`. -/
def sampleUser : User :=
  { id := "user-1"
    email := "alice@example.com"
    username := "alice"
    password := bcryptHash "pw"
    refreshTokenHash := none
    firstName := "Alice"
    lastName := "Doe"
    role := .CUSTOMER
    isActive := true }

/-- A sample configuration with distinct access and refresh secrets. -/
def sampleCfg : Config :=
  { secret := "access-secret"
    refreshSecret := "refresh-secret"
    accessTokenExpiresIn := none
    refreshTokenExpiresIn := none }

/-- A sample store holding only `sampleUser`. -/
def sampleStore : Store := { users := [sampleUser], nextId := 2 }

/-- A refresh token issued to `sampleUser` under an earlier username,
signed with the refresh secret. -/
def tokenOld : SignedToken :=
  jwtSign { sub := "user-1", username := "alicia",
            email := "alice@example.com", role := .CUSTOMER }
    "refresh-secret" "7d"

/-- `sampleStore` with the hash of `tokenOld` stored for `sampleUser`. -/
def storeR : Store :=
  { users := [{ sampleUser with refreshTokenHash := some (bcryptHash tokenOld) }]
    nextId := 2 }

/-- C1: refresh succeeds exactly when the presented token verifies against
the refresh secret, the user exists and is active, and the stored
`refreshTokenHash` matches the presented token; every failure carries the
single generic message `Invalid refresh token`. -/
theorem refresh_accepts_iff_generic_error (cfg : Config) (token : SignedToken)
    (store : Store) :
    isOkE (AuthService.refresh cfg token store).fst = refreshChecks cfg token store ∧
    ∀ e, (AuthService.refresh cfg token store).fst = Except.error e →
      e = AuthErr.unauthorized "Invalid refresh token" := by
  unfold AuthService.refresh refreshChecks
  cases hv : jwtVerify token cfg.refreshSecret with
  | none => simp [isOkE, hv]
  | some payload =>
    cases hf : UsersService.getFindById store payload.sub with
    | none => simp [isOkE, hv, hf]
    | some user =>
      cases hact : user.isActive with
      | false => simp [isOkE, hv, hf, hact]
      | true =>
        cases hh : user.refreshTokenHash with
        | none => simp [isOkE, hv, hf, hact, hh]
        | some h0 =>
          cases hc : bcryptCompare token h0 with
          | false => simp [isOkE, hv, hf, hact, hh, hc]
          | true => simp [isOkE, hv, hf, hact, hh, hc]

/-- Evaluation of the C1 theorem on concrete runs: a store whose hash
matches the presented token accepts, and the sample store with no stored
hash is refused with the generic message. -/
theorem refresh_accepts_iff_generic_error_run :
    isOkE (AuthService.refresh sampleCfg tokenOld storeR).fst =
      refreshChecks sampleCfg tokenOld storeR ∧
    refreshChecks sampleCfg tokenOld storeR = true ∧
    (AuthService.refresh sampleCfg tokenOld sampleStore).fst =
      Except.error (AuthErr.unauthorized "Invalid refresh token") :=
  ⟨(refresh_accepts_iff_generic_error sampleCfg tokenOld storeR).1,
   by decide, by decide⟩

/-- C5: verifying each token of `generateTokenPair` with its own secret
recovers the claims payload, and cross-verification with the other secret
fails, given that the two configured secrets are distinct. -/
theorem issuePair_roundtrip (cfg : Config) (user : UserWithoutPassword)
    (hsec : cfg.secret ≠ cfg.refreshSecret) :
    jwtVerify (AuthService.generateTokenPair cfg user).accessToken cfg.secret =
      some (AuthService.tokenPayload user) ∧
    jwtVerify (AuthService.generateTokenPair cfg user).refreshToken cfg.refreshSecret =
      some (AuthService.tokenPayload user) ∧
    jwtVerify (AuthService.generateTokenPair cfg user).accessToken cfg.refreshSecret =
      none ∧
    jwtVerify (AuthService.generateTokenPair cfg user).refreshToken cfg.secret =
      none := by
  have hsec2 : cfg.refreshSecret ≠ cfg.secret := Ne.symm hsec
  unfold AuthService.generateTokenPair jwtSign jwtVerify
  simp [hsec, hsec2]

/-- Evaluation of the C5 theorem at the sample configuration and user. -/
theorem issuePair_roundtrip_run :
    jwtVerify (AuthService.generateTokenPair sampleCfg (AuthService.excludePassword sampleUser)).accessToken
        sampleCfg.secret =
      some (AuthService.tokenPayload (AuthService.excludePassword sampleUser)) ∧
    jwtVerify (AuthService.generateTokenPair sampleCfg (AuthService.excludePassword sampleUser)).refreshToken
        sampleCfg.refreshSecret =
      some (AuthService.tokenPayload (AuthService.excludePassword sampleUser)) ∧
    jwtVerify (AuthService.generateTokenPair sampleCfg (AuthService.excludePassword sampleUser)).accessToken
        sampleCfg.refreshSecret = none ∧
    jwtVerify (AuthService.generateTokenPair sampleCfg (AuthService.excludePassword sampleUser)).refreshToken
        sampleCfg.secret = none :=
  issuePair_roundtrip sampleCfg (AuthService.excludePassword sampleUser) (by decide)

/-- C8: register on an already-used email fails with the email conflict
error and returns the store unchanged: no user row, password hash or
refresh hash is written. -/
theorem register_email_conflict_no_write (cfg : Config) (dto : RegisterDto)
    (store : Store)
    (h : (UsersService.getUserByEmail store dto.email).isSome = true) :
    AuthService.register cfg dto store =
      (Except.error (AuthErr.badRequest "Email is already registered"), store) := by
  unfold AuthService.register AuthService.isExitUser
  simp [h]

/-- Sample register request reusing the sample user's email. -/
def dtoTakenEmail : RegisterDto :=
  { email := "alice@example.com"
    username := "newname"
    password := "secret"
    firstName := "New"
    lastName := "Name" }

/-- Evaluation of the C8 theorem: registering with the sample user's email
leaves the sample store untouched. -/
theorem register_email_conflict_no_write_run :
    (UsersService.getUserByEmail sampleStore dtoTakenEmail.email).isSome = true ∧
    AuthService.register sampleCfg dtoTakenEmail sampleStore =
      (Except.error (AuthErr.badRequest "Email is already registered"), sampleStore) :=
  ⟨by decide,
   register_email_conflict_no_write sampleCfg dtoTakenEmail sampleStore (by decide)⟩

/-- C10: a present-but-empty required-roles list rejects every
authenticated identity with 403, while absent role metadata admits every
authenticated identity. -/
theorem rolesGuard_empty_rejects_absent_admits (i : Identity) :
    authGate false (some i) (some []) = GateDecision.rejected403 ∧
    authGate false (some i) none = GateDecision.admitted ∧
    rolesGuardCanActivate (some []) i = false ∧
    rolesGuardCanActivate none i = true :=
  ⟨rfl, rfl, rfl, rfl⟩

/-- C3: credential verification fails with the generic
`Invalid credentials` both for an absent user and for a failed password
comparison; `Account is inactive` is raised only once the password match
has succeeded; success returns the identity with the password stripped. -/
theorem validateCredentials_error_taxonomy (store : Store)
    (username password : String) :
    (UsersService.getUserByUsername store username = none →
      AuthService.validateCredentials store username password =
        Except.error (AuthErr.unauthorized "Invalid credentials")) ∧
    ∀ user, UsersService.getUserByUsername store username = some user →
      (bcryptCompare password user.password = false →
        AuthService.validateCredentials store username password =
          Except.error (AuthErr.unauthorized "Invalid credentials")) ∧
      (bcryptCompare password user.password = true → user.isActive = false →
        AuthService.validateCredentials store username password =
          Except.error (AuthErr.unauthorized "Account is inactive")) ∧
      (bcryptCompare password user.password = true → user.isActive = true →
        AuthService.validateCredentials store username password =
          Except.ok (AuthService.excludePassword user)) := by
  constructor
  · intro hnone
    simp [AuthService.validateCredentials, hnone]
  · intro user hu
    refine ⟨?_, ?_, ?_⟩
    · intro hcmp
      simp [AuthService.validateCredentials, hu, hcmp]
    · intro hcmp hact
      simp [AuthService.validateCredentials, hu, hcmp, hact]
    · intro hcmp hact
      simp [AuthService.validateCredentials, hu, hcmp, hact]

/-- Evaluation of the C3 theorem on concrete runs: wrong password, then
correct password on an inactive account, then a successful login check. -/
theorem validateCredentials_error_taxonomy_run :
    AuthService.validateCredentials sampleStore "alice" "wrong" =
      Except.error (AuthErr.unauthorized "Invalid credentials") ∧
    AuthService.validateCredentials sampleStore "alice" "pw" =
      Except.ok (AuthService.excludePassword sampleUser) ∧
    AuthService.validateCredentials sampleStore "nobody" "pw" =
      Except.error (AuthErr.unauthorized "Invalid credentials") :=
  ⟨((validateCredentials_error_taxonomy sampleStore "alice" "wrong").2
      sampleUser (by decide)).1 (by decide),
   ((validateCredentials_error_taxonomy sampleStore "alice" "pw").2
      sampleUser (by decide)).2.2 (by decide) (by decide),
   (validateCredentials_error_taxonomy sampleStore "nobody" "pw").1 (by decide)⟩

/-- C4: register fails on a taken email with the email conflict error, on
a taken username (with a fresh email) with the username conflict error —
so when both are taken the email violation is the one reported — and
proceeds when both are unused. -/
theorem register_conflict_email_first (cfg : Config) (dto : RegisterDto)
    (store : Store) :
    ((UsersService.getUserByEmail store dto.email).isSome = true →
      (AuthService.register cfg dto store).fst =
        Except.error (AuthErr.badRequest "Email is already registered")) ∧
    ((UsersService.getUserByEmail store dto.email).isSome = false →
      (UsersService.getUserByUsername store dto.username).isSome = true →
      (AuthService.register cfg dto store).fst =
        Except.error (AuthErr.badRequest "Username is already taken")) ∧
    ((UsersService.getUserByEmail store dto.email).isSome = false →
      (UsersService.getUserByUsername store dto.username).isSome = false →
      isOkE (AuthService.register cfg dto store).fst = true) := by
  refine ⟨?_, ?_, ?_⟩
  · intro he
    simp [AuthService.register, AuthService.isExitUser, he]
  · intro he hn
    simp [AuthService.register, AuthService.isExitUser, he, hn]
  · intro he hn
    simp [AuthService.register, AuthService.isExitUser, UsersService.createUser,
      he, hn, isOkE]

/-- Evaluation of the C4 theorem: a request whose email and username are
both taken is reported as the email conflict; a request that reuses only
the username is reported as the username conflict. -/
theorem register_conflict_email_first_run :
    (AuthService.register sampleCfg
        { email := "alice@example.com", username := "alice",
          password := "secret", firstName := "X", lastName := "Y" }
        sampleStore).fst =
      Except.error (AuthErr.badRequest "Email is already registered") ∧
    (AuthService.register sampleCfg
        { email := "fresh@example.com", username := "alice",
          password := "secret", firstName := "X", lastName := "Y" }
        sampleStore).fst =
      Except.error (AuthErr.badRequest "Username is already taken") :=
  ⟨(register_conflict_email_first sampleCfg
      { email := "alice@example.com", username := "alice",
        password := "secret", firstName := "X", lastName := "Y" }
      sampleStore).1 (by decide),
   (register_conflict_email_first sampleCfg
      { email := "fresh@example.com", username := "alice",
        password := "secret", firstName := "X", lastName := "Y" }
      sampleStore).2.1 (by decide) (by decide)⟩

/-- C6: a public route is admitted with no token check; a non-public route
with declared roles admits an authenticated identity exactly when its role
is a member of the declared list (rejecting with 403 otherwise); with no
declared role metadata any authenticated identity is admitted. -/
theorem authGate_role_membership (idt : Option Identity)
    (requiredRoles : Option (List Role)) (i : Identity) (rs : List Role) :
    authGate true idt requiredRoles = GateDecision.admitted ∧
    (authGate false (some i) (some rs) = GateDecision.admitted ↔ i.role ∈ rs) ∧
    (i.role ∉ rs →
      authGate false (some i) (some rs) = GateDecision.rejected403) ∧
    authGate false (some i) none = GateDecision.admitted := by
  refine ⟨rfl, ?_, ?_, rfl⟩
  · by_cases hm : i.role ∈ rs
    · have hb : rs.any (fun r => r == i.role) = true := by simpa using hm
      simp [authGate, rolesGuardCanActivate, hb, hm]
    · have hb : rs.any (fun r => r == i.role) = false := by
        simp only [List.any_eq_false, beq_iff_eq]
        intro r hr hrole
        exact hm (hrole ▸ hr)
      simp [authGate, rolesGuardCanActivate, hb, hm]
  · intro hm
    have hb : rs.any (fun r => r == i.role) = false := by
      simp only [List.any_eq_false, beq_iff_eq]
      intro r hr hrole
      exact hm (hrole ▸ hr)
    simp [authGate, rolesGuardCanActivate, hb]

/-- Evaluation of the C6 theorem: an admin is admitted to an
admin-or-vendor route, a customer is rejected with 403 there, and a public
route admits an unauthenticated request. -/
theorem authGate_role_membership_run :
    authGate false (some ⟨"u1", Role.ADMIN⟩) (some [Role.ADMIN, Role.VENDOR]) =
      GateDecision.admitted ∧
    authGate false (some ⟨"u2", Role.CUSTOMER⟩) (some [Role.ADMIN, Role.VENDOR]) =
      GateDecision.rejected403 ∧
    authGate true none (some [Role.ADMIN]) = GateDecision.admitted :=
  ⟨(authGate_role_membership none none ⟨"u1", Role.ADMIN⟩
      [Role.ADMIN, Role.VENDOR]).2.1.mpr (by decide),
   (authGate_role_membership none none ⟨"u2", Role.CUSTOMER⟩
      [Role.ADMIN, Role.VENDOR]).2.2.1 (by decide),
   (authGate_role_membership none (some [Role.ADMIN]) ⟨"u1", Role.ADMIN⟩ []).1⟩

/-- C7: the `user` object of the login/register response body carries
exactly the six public fields, and the `me` response (the request identity
with the `password` key removed) carries no `password` and no
`refreshTokenHash` key. The refresh response body is a bare token pair
with no user object at all. -/
theorem responses_hide_password_and_refresh_hash :
    (∀ cfg user,
      "password" ∉
        (userResponseObj ((AuthService.generateAuthResponseWithTokens cfg user).user)).map
          Prod.fst ∧
      "refreshTokenHash" ∉
        (userResponseObj ((AuthService.generateAuthResponseWithTokens cfg user).user)).map
          Prod.fst) ∧
    (∀ store payload obj, jwtStrategyValidate store payload = Except.ok obj →
      "password" ∉ (meHandler obj).map Prod.fst ∧
      "refreshTokenHash" ∉ (meHandler obj).map Prod.fst) := by
  constructor
  · intro cfg user
    constructor <;> simp [userResponseObj]
  · intro store payload obj hok
    unfold jwtStrategyValidate at hok
    cases hf : UsersService.getFindById store payload.sub with
    | none => rw [hf] at hok; exact absurd hok (by simp)
    | some user =>
      simp only [hf] at hok
      cases hact : user.isActive with
      | false => simp [hact] at hok
      | true =>
        simp only [hact, Bool.not_true, Bool.false_eq_true, if_false,
          ite_false, Except.ok.injEq] at hok
        rw [← hok]
        constructor <;> simp [meHandler]

/-- Evaluation of the C7 theorem: the identity object attached for the
sample user yields a `me` response with neither secret key, and the login
response user object for the sample user likewise. -/
theorem responses_hide_password_and_refresh_hash_run :
    ("password" ∉
      (userResponseObj ((AuthService.generateAuthResponseWithTokens sampleCfg
        (AuthService.excludePassword sampleUser)).user)).map Prod.fst) ∧
    ("password" ∉
      (meHandler [("id", JsonVal.str "user-1"),
                  ("email", JsonVal.str "alice@example.com"),
                  ("role", JsonVal.roleVal Role.CUSTOMER)]).map Prod.fst) ∧
    ("refreshTokenHash" ∉
      (meHandler [("id", JsonVal.str "user-1"),
                  ("email", JsonVal.str "alice@example.com"),
                  ("role", JsonVal.roleVal Role.CUSTOMER)]).map Prod.fst) :=
  ⟨(responses_hide_password_and_refresh_hash.1 sampleCfg
      (AuthService.excludePassword sampleUser)).1,
   (responses_hide_password_and_refresh_hash.2 sampleStore
      { sub := "user-1", username := "alicia", email := "alice@example.com",
        role := Role.CUSTOMER }
      [("id", JsonVal.str "user-1"),
       ("email", JsonVal.str "alice@example.com"),
       ("role", JsonVal.roleVal Role.CUSTOMER)] (by decide)).1,
   (responses_hide_password_and_refresh_hash.2 sampleStore
      { sub := "user-1", username := "alicia", email := "alice@example.com",
        role := Role.CUSTOMER }
      [("id", JsonVal.str "user-1"),
       ("email", JsonVal.str "alice@example.com"),
       ("role", JsonVal.roleVal Role.CUSTOMER)] (by decide)).2⟩

/-- Clearing or setting the refresh hash twice with the same value equals
doing it once: the per-row update of `refreshTokenHash` is idempotent. -/
theorem updateRefreshHash_idemp (store : Store) (userId : String)
    (h : Option (BHash SignedToken)) :
    UsersService.updateRefreshHash
        (UsersService.updateRefreshHash store userId h) userId h =
      UsersService.updateRefreshHash store userId h := by
  unfold UsersService.updateRefreshHash
  simp only [List.map_map, Store.mk.injEq]
  refine ⟨?_, trivial⟩
  apply List.map_congr_left
  intro a _
  simp only [Function.comp]
  by_cases hcase : a.id = userId
  · simp [hcase]
  · have hne : (a.id == userId) = false := by simpa using hcase
    simp [hne]

/-- C9: logout never errors, clears the stored refreshTokenHash of the
given user, and a second logout in a row is a no-op returning the same
result and state. -/
theorem logout_idempotent (store : Store) (userId : String) :
    (AuthService.logout store userId).fst = Except.ok () ∧
    (∀ u, u ∈ (AuthService.logout store userId).snd.users → u.id = userId →
      u.refreshTokenHash = none) ∧
    AuthService.logout ((AuthService.logout store userId).snd) userId =
      AuthService.logout store userId := by
  refine ⟨rfl, ?_, ?_⟩
  · intro u hu hid
    simp only [AuthService.logout, UsersService.clearRefreshTokenHash,
      UsersService.updateRefreshHash, List.mem_map] at hu
    obtain ⟨a, _, ha⟩ := hu
    by_cases hcase : a.id = userId
    · rw [← ha]
      simp [hcase]
    · have hne : (a.id == userId) = false := by simpa using hcase
      rw [hne] at ha
      simp only [Bool.false_eq_true, if_false, ite_false] at ha
      rw [← ha] at hid
      exact absurd hid hcase
  · simp only [AuthService.logout, UsersService.clearRefreshTokenHash]
    rw [updateRefreshHash_idemp]

/-- Evaluation of the C9 theorem: double logout on the store that holds a
stored refresh hash equals single logout, and the hash is cleared. -/
theorem logout_idempotent_run :
    AuthService.logout ((AuthService.logout storeR "user-1").snd) "user-1" =
      AuthService.logout storeR "user-1" ∧
    ((AuthService.logout storeR "user-1").snd).users =
      [{ sampleUser with refreshTokenHash := none }] :=
  ⟨(logout_idempotent storeR "user-1").2.2, by decide⟩

/-- `find?` commutes with mapping a function that preserves the search
predicate (here: updates that keep the id column intact). -/
theorem find?_map_of_pred {α : Type} (f : α → α) (p : α → Bool)
    (hp : ∀ u, p (f u) = p u) :
    ∀ l : List α, (l.map f).find? p = Option.map f (l.find? p) := by
  intro l
  induction l with
  | nil => rfl
  | cons a t ih =>
    by_cases hpa : p a = true
    · rw [List.map_cons, List.find?_cons_of_pos _ hpa,
        List.find?_cons_of_pos _ (by rw [hp a]; exact hpa)]
      rfl
    · have hpa2 : ¬ p (f a) = true := by rw [hp a]; exact hpa
      rw [List.map_cons, List.find?_cons_of_neg _ hpa2,
        List.find?_cons_of_neg _ hpa, ih]

/-- The element returned by `find?` satisfies the search predicate. -/
theorem find?_pred {α : Type} (p : α → Bool) (l : List α) (a : α)
    (h : l.find? p = some a) : p a = true :=
  List.find?_some h

/-- Every row whose id matches the update key holds the bcrypt hash of
the newly persisted refresh token after `setRefreshTokenHash`. -/
theorem setRefreshTokenHash_mem (store : Store) (uid : String)
    (tok : SignedToken) :
    ∀ u, u ∈ (UsersService.setRefreshTokenHash store uid tok).users →
      u.id = uid → u.refreshTokenHash = some (bcryptHash tok) := by
  intro u hu hid
  simp only [UsersService.setRefreshTokenHash, UsersService.updateRefreshHash,
    List.mem_map] at hu
  obtain ⟨a, _, ha⟩ := hu
  by_cases hcase : a.id = uid
  · have hb : (a.id == uid) = true := by simpa using hcase
    rw [hb] at ha
    simp only [if_true, ite_true] at ha
    rw [← ha]
  · have hb : (a.id == uid) = false := by simpa using hcase
    rw [hb] at ha
    simp only [Bool.false_eq_true, if_false, ite_false] at ha
    rw [← ha] at hid
    exact absurd hid hcase

/-- C2: each of the three refresh-token-issuing operations — login,
register and refresh — overwrites the stored `refreshTokenHash` of the
subject row with the bcrypt hash of the refresh token it just issued; in
particular a successful refresh rotates the stored hash, so presenting
the pre-rotation token again afterwards — whenever it differs from the
newly issued one — is rejected with the generic error. -/
theorem refresh_rotation (cfg : Config) (store : Store) :
    (∀ dto result store2,
      AuthService.login cfg dto store = (Except.ok result, store2) →
      ∀ u, u ∈ store2.users → u.id = result.user.id →
        u.refreshTokenHash = some (bcryptHash result.refreshToken)) ∧
    (∀ dto result store2,
      AuthService.register cfg dto store = (Except.ok result, store2) →
      ∀ u, u ∈ store2.users → u.id = result.user.id →
        u.refreshTokenHash = some (bcryptHash result.refreshToken)) ∧
    (∀ tokenA pair store2,
      AuthService.refresh cfg tokenA store = (Except.ok pair, store2) →
      (∀ payload, jwtVerify tokenA cfg.refreshSecret = some payload →
        ∀ u, u ∈ store2.users → u.id = payload.sub →
          u.refreshTokenHash = some (bcryptHash pair.refreshToken)) ∧
      (pair.refreshToken ≠ tokenA →
        (AuthService.refresh cfg tokenA store2).fst =
          Except.error (AuthErr.unauthorized "Invalid refresh token"))) := by
  refine ⟨?_, ?_, ?_⟩
  · intro dto result store2 hsucc u hu hid
    unfold AuthService.login at hsucc
    cases hvc : AuthService.validateCredentials store dto.username dto.password with
    | error e => rw [hvc] at hsucc; exact absurd hsucc (by simp)
    | ok user =>
      simp only [hvc, Prod.mk.injEq, Except.ok.injEq] at hsucc
      obtain ⟨hres, hstore⟩ := hsucc
      rw [hres] at hstore
      have hid2 : u.id = user.id := by
        rw [hid, ← hres]
        rfl
      rw [← hstore] at hu
      exact setRefreshTokenHash_mem store user.id result.refreshToken u hu hid2
  · intro dto result store2 hsucc u hu hid
    unfold AuthService.register at hsucc
    cases hex : AuthService.isExitUser store dto.email dto.username with
    | some e => rw [hex] at hsucc; exact absurd hsucc (by simp)
    | none =>
      simp only [hex] at hsucc
      cases hcu : UsersService.createUser store
          { email := dto.email, username := dto.username,
            password := bcryptHash dto.password,
            firstName := dto.firstName, lastName := dto.lastName } with
      | error e => rw [hcu] at hsucc; exact absurd hsucc (by simp)
      | ok p =>
        obtain ⟨user, store1⟩ := p
        simp only [hcu, Prod.mk.injEq, Except.ok.injEq] at hsucc
        obtain ⟨hres, hstore⟩ := hsucc
        rw [hres] at hstore
        have hid2 : u.id = user.id := by
          rw [hid, ← hres]
          rfl
        rw [← hstore] at hu
        exact setRefreshTokenHash_mem store1 user.id result.refreshToken u hu hid2
  · intro tokenA pair store2 hsucc
    unfold AuthService.refresh at hsucc
    cases hv : jwtVerify tokenA cfg.refreshSecret with
    | none => rw [hv] at hsucc; exact absurd hsucc (by simp)
    | some payload =>
      simp only [hv] at hsucc
      cases hf : UsersService.getFindById store payload.sub with
      | none => simp only [hf] at hsucc; exact absurd hsucc (by simp)
      | some user =>
        simp only [hf] at hsucc
        cases hact : user.isActive with
        | false => simp [hact] at hsucc
        | true =>
          simp only [hact, Bool.not_true, Bool.false_eq_true, if_false,
            ite_false] at hsucc
          cases hh : user.refreshTokenHash with
          | none => simp only [hh] at hsucc; exact absurd hsucc (by simp)
          | some h0 =>
            simp only [hh] at hsucc
            cases hcmp : bcryptCompare tokenA h0 with
            | false => simp [hcmp] at hsucc
            | true =>
              simp only [hcmp, Bool.not_true, Bool.false_eq_true, if_false,
                ite_false, Prod.mk.injEq, Except.ok.injEq] at hsucc
              obtain ⟨hpair, hstore⟩ := hsucc
              rw [hpair] at hstore
              have hid_user : user.id = payload.sub := by
                simp only [UsersService.getFindById] at hf
                have hp := find?_pred (fun u : User => u.id == payload.sub)
                  store.users user hf
                exact eq_of_beq hp
              constructor
              · intro payload2 hpl u hu hid
                injection hpl with hpl2
                subst hpl2
                rw [← hstore] at hu
                exact setRefreshTokenHash_mem store user.id pair.refreshToken u hu
                  (hid.trans hid_user.symm)
              · intro hne
                have hf2 : UsersService.getFindById store2 payload.sub =
                    some { user with
                           refreshTokenHash := some (bcryptHash pair.refreshToken) } := by
                  rw [← hstore]
                  simp only [UsersService.setRefreshTokenHash,
                    UsersService.updateRefreshHash, UsersService.getFindById]
                  rw [find?_map_of_pred]
                  · simp only [UsersService.getFindById] at hf
                    rw [hf]
                    simp
                  · intro u
                    by_cases hcase : u.id = user.id
                    · have hb : (u.id == user.id) = true := by simpa using hcase
                      rw [hb]
                      simp only [if_true, ite_true]
                    · have hb : (u.id == user.id) = false := by simpa using hcase
                      rw [hb]
                      simp
                have hcmp2 :
                    bcryptCompare tokenA (bcryptHash pair.refreshToken) = false := by
                  simp only [bcryptCompare, bcryptHash, decide_eq_false_iff_not]
                  exact fun hEq => hne hEq.symm
                unfold AuthService.refresh
                simp only [hv, hf2]
                simp [hact, hcmp2]

/-- The token pair issued when `tokenOld` is presented against `storeR`. -/
def pairR : TokenPair :=
  AuthService.generateTokenPair sampleCfg
    (AuthService.excludePassword
      { sampleUser with refreshTokenHash := some (bcryptHash tokenOld) })

/-- The login request of the sample user. -/
def loginDtoR : LoginDto := { username := "alice", password := "pw" }

/-- The response issued when the sample user logs in. -/
def loginResR : AuthResponse :=
  AuthService.generateAuthResponseWithTokens sampleCfg
    (AuthService.excludePassword sampleUser)

/-- The store after the sample user logs in. -/
def loginStoreR : Store :=
  (AuthService.login sampleCfg loginDtoR sampleStore).snd

/-- A register request for a fresh user. -/
def regDtoR : RegisterDto :=
  { email := "bob@example.com", username := "bob", password := "pw2",
    firstName := "Bob", lastName := "Lee" }

/-- The row that registering `regDtoR` against `sampleStore` creates. -/
def regUserR : User :=
  { id := "user-2", email := "bob@example.com", username := "bob",
    password := bcryptHash "pw2", refreshTokenHash := none,
    firstName := "Bob", lastName := "Lee", role := .CUSTOMER,
    isActive := true }

/-- The response issued when `regDtoR` registers. -/
def regResR : AuthResponse :=
  AuthService.generateAuthResponseWithTokens sampleCfg
    (AuthService.excludePassword regUserR)

/-- The store after `regDtoR` registers. -/
def regStoreR : Store :=
  (AuthService.register sampleCfg regDtoR sampleStore).snd

/-- Evaluation of the C2 theorem on concrete runs: login and register both
persist the hash of the refresh token they issue for their subject row,
and after a successful rotation on `storeR` presenting the old token
again is refused. -/
theorem refresh_rotation_run :
    ({ sampleUser with
        refreshTokenHash :=
          some (bcryptHash loginResR.refreshToken) } : User).refreshTokenHash =
      some (bcryptHash loginResR.refreshToken) ∧
    ({ regUserR with
        refreshTokenHash :=
          some (bcryptHash regResR.refreshToken) } : User).refreshTokenHash =
      some (bcryptHash regResR.refreshToken) ∧
    (AuthService.refresh sampleCfg tokenOld
        ((AuthService.refresh sampleCfg tokenOld storeR).snd)).fst =
      Except.error (AuthErr.unauthorized "Invalid refresh token") :=
  ⟨(refresh_rotation sampleCfg sampleStore).1 loginDtoR loginResR loginStoreR
      (by decide)
      { sampleUser with
        refreshTokenHash := some (bcryptHash loginResR.refreshToken) }
      (by decide) (by decide),
   (refresh_rotation sampleCfg sampleStore).2.1 regDtoR regResR regStoreR
      (by decide)
      { regUserR with
        refreshTokenHash := some (bcryptHash regResR.refreshToken) }
      (by decide) (by decide),
   ((refresh_rotation sampleCfg storeR).2.2 tokenOld pairR
      ((AuthService.refresh sampleCfg tokenOld storeR).snd) (by decide)).2
      (by decide)⟩
